import Mathlib

/-!
Verification development for the policy CRUD/translation layer of
`pkg/config/policies.go`: the config-tree data model, the policy
formatters (implicit-meta, MSP principal, signature tree), the policy
extractor, the installer (single and batch) and the removers.

Go-specific behaviour is embedded explicitly:
* Go maps are modelled as association lists with unique keys
  (`SMap`); `m[k]` with the comma-ok idiom is `lookupS`, `delete` is
  `eraseS`, assignment is `insertS`.
* A `nil` pointer obtained from a map lookup whose field is then
  accessed is a run-time panic; panics are a distinguished outcome
  (`PRes.panics`, `MutRes.panics`), disjoint from returned errors.
* `int32(len(xs))` is the two's-complement wrap `int32ofNat`.
* The opaque binary codec (protobuf) is modelled per target shape:
  encoding is a constructor of `PolicyBytes` / `PrincipalBytes`, and
  decoding succeeds exactly on payloads encoded for that shape.
* In-place mutation of a config group is modelled by state passing:
  each mutator returns the post-state together with the `error` value.
-/

namespace FabricConfig

/-! ## String maps (Go `map[string]T`) -/

/-- Association list standing for a Go `map[string]T` (unique keys). -/
abbrev SMap (α : Type) := List (String × α)

/-- Go map read `m[k]` (comma-ok: `none` when the key is absent). -/
def lookupS {α : Type} : SMap α → String → Option α
  | [], _ => none
  | (k', v) :: rest, k => if k' = k then some v else lookupS rest k

/-- Go map write `m[k] = v`: replaces the entry of key `k`, appending when absent. -/
def insertS {α : Type} : SMap α → String → α → SMap α
  | [], k, v => [(k, v)]
  | (k', v') :: rest, k, v =>
    if k' = k then (k, v) :: rest else (k', v') :: insertS rest k v

/-- Go `delete(m, k)`: removes the entry of key `k` (a no-op when absent). -/
def eraseS {α : Type} : SMap α → String → SMap α
  | [], _ => []
  | (k', v') :: rest, k => if k' = k then rest else (k', v') :: eraseS rest k

/-! ## ASCII case folding (the strings folded by the source are ASCII) -/

/-- ASCII upper-casing of one character (`strings.ToUpper` restricted to ASCII). -/
def asciiUpper (c : Char) : Char :=
  if 'a' ≤ c ∧ c ≤ 'z' then Char.ofNat (c.toNat - 32) else c

/-- ASCII lower-casing of one character (`strings.ToLower` restricted to ASCII). -/
def asciiLower (c : Char) : Char :=
  if 'A' ≤ c ∧ c ≤ 'Z' then Char.ofNat (c.toNat + 32) else c

/-- `strings.ToUpper` on the ASCII strings this component upper-cases (gate names). -/
def toUpperAscii (s : String) : String := String.mk (s.data.map asciiUpper)

/-- `strings.ToLower` on the ASCII strings this component lower-cases
(role enum names, group keys). -/
def toLowerAscii (s : String) : String := String.mk (s.data.map asciiLower)

/-- Go `int32(n)` applied to a list length: two's-complement wrap into
`[-2^31, 2^31)`. -/
def int32ofNat (len : Nat) : Int := ((len : Int) + 2 ^ 31) % 2 ^ 32 - 2 ^ 31

/-! ## Package constants

Modelled from the spec: the fixed navigation keys ("Orderer",
"Application", "Consortiums"), the required policy names
(`Admins`/`Readers`/`Writers`), the protected `BlockValidation` policy
name, the two logical policy-kind strings, and the `policydsl` gate
constants (upper-cased to OR/AND/OUTOF by the formatter) are declared
in files of this repository that are not under `src/`. -/

/-- Channel-config key of the consortiums group. -/
def ConsortiumsGroupKey : String := "Consortiums"

/-- Channel-config key of the orderer group. -/
def OrdererGroupKey : String := "Orderer"

/-- Channel-config key of the application group. -/
def ApplicationGroupKey : String := "Application"

/-- Required policy name `Admins`. -/
def AdminsPolicyKey : String := "Admins"

/-- Required policy name `Readers`. -/
def ReadersPolicyKey : String := "Readers"

/-- Required policy name `Writers`. -/
def WritersPolicyKey : String := "Writers"

/-- Protected orderer policy name `BlockValidation`. -/
def BlockValidationPolicyKey : String := "BlockValidation"

/-- Kind string of a logical implicit-meta policy. -/
def ImplicitMetaPolicyType : String := "ImplicitMeta"

/-- Kind string of a logical signature policy. -/
def SignaturePolicyType : String := "Signature"

/-- `policydsl.GateAnd`. -/
def GateAnd : String := "And"

/-- `policydsl.GateOr`. -/
def GateOr : String := "Or"

/-- `policydsl.GateOutOf`. -/
def GateOutOf : String := "OutOf"

/-! ## Protobuf enums

Modelled from the spec: the external protobuf definitions
(`common.Policy.PolicyType`, `msp.MSPPrincipal.Classification`,
`msp.MSPRole.MSPRoleType`, `common.ImplicitMetaPolicy.Rule`) assign
these integer tags; they live in the external proto modules, not in
this repository. -/

/-- `cb.Policy_SIGNATURE` kind-tag. -/
def Policy_SIGNATURE : Int := 1

/-- `cb.Policy_IMPLICIT_META` kind-tag. -/
def Policy_IMPLICIT_META : Int := 3

/-- `mb.MSPPrincipal_ROLE` classification tag. -/
def MSPPrincipal_ROLE : Int := 0

/-- `mb.MSPPrincipal_ORGANIZATION_UNIT` classification tag. -/
def MSPPrincipal_ORGANIZATION_UNIT : Int := 1

/-- `mb.MSPPrincipal_IDENTITY` classification tag. -/
def MSPPrincipal_IDENTITY : Int := 2

/-- `mb.MSPPrincipal_ANONYMITY` classification tag. -/
def MSPPrincipal_ANONYMITY : Int := 3

/-- `mb.MSPPrincipal_COMBINED` classification tag. -/
def MSPPrincipal_COMBINED : Int := 4

/-- `cb.ImplicitMetaPolicy_ANY` quantifier tag. -/
def ImplicitMetaPolicy_ANY : Int := 0

/-- `cb.ImplicitMetaPolicy_ALL` quantifier tag. -/
def ImplicitMetaPolicy_ALL : Int := 1

/-- `cb.ImplicitMetaPolicy_MAJORITY` quantifier tag. -/
def ImplicitMetaPolicy_MAJORITY : Int := 2

/-! ## Data model -/

/-- `cb.ImplicitMetaPolicy`: quantifier enum value plus sub-policy name. -/
structure ImplicitMetaPolicy where
  rule : Int
  subPolicy : String
deriving Repr, DecidableEq

/-- `mb.MSPRole`: MSP identifier plus role enum value. -/
structure MSPRole where
  mspIdentifier : String
  role : Int
deriving Repr, DecidableEq

/-- Opaque byte payload of `mb.MSPPrincipal.Principal`, modelled per the
shapes the codec is asked to decode it into: either the encoding of an
`MSPRole`, or bytes that decode into no `MSPRole`. -/
inductive PrincipalBytes where
  | roleBytes (r : MSPRole)
  | junkP
deriving Repr, DecidableEq

/-- `mb.MSPPrincipal`: classification tag plus opaque payload. -/
structure MSPPrincipal where
  principalClassification : Int
  principal : PrincipalBytes
deriving Repr, DecidableEq

/-- `cb.SignaturePolicy`: the threshold tree. `nOutOf` carries the `int32`
threshold `N` and the ordered child list; `signedBy` carries the `int32`
identity index; `unset` is a `nil`/unknown oneof variant (the `default`
case of the source's type switch). -/
inductive SignaturePolicy where
  | nOutOf (n : Int) (rules : List SignaturePolicy)
  | signedBy (i : Int)
  | unset
deriving Repr

/-- `cb.SignaturePolicyEnvelope`: version, root rule, identity list. -/
structure SignaturePolicyEnvelope where
  version : Int
  rule : SignaturePolicy
  identities : List MSPPrincipal
deriving Repr

/-- Opaque byte payload of `cb.Policy.Value`, modelled per the shapes the
codec is asked to decode it into: the encoding of an
`ImplicitMetaPolicy`, the encoding of a `SignaturePolicyEnvelope`, or
bytes that decode into neither. -/
inductive PolicyBytes where
  | impBytes (imp : ImplicitMetaPolicy)
  | sigBytes (sp : SignaturePolicyEnvelope)
  | junk
deriving Repr

/-- `cb.Policy`: kind-tag (`int32`) plus binary payload. -/
structure PolicyProto where
  ptype : Int
  value : PolicyBytes
deriving Repr

/-- `cb.ConfigPolicy`: stored policy entry (modification-policy tag plus
the encoded policy). -/
structure ConfigPolicy where
  modPolicy : String
  policy : PolicyProto
deriving Repr

/-- `cb.ConfigGroup`: a config-tree node with child groups and policies
(the child map is spelled `List (String × ConfigGroup)` rather than
`SMap ConfigGroup` only because the nested-inductive elaborator does not
see through the abbreviation; the two are definitionally the same). -/
inductive ConfigGroup where
  | mk (groups : List (String × ConfigGroup)) (policies : SMap ConfigPolicy)
deriving Repr

/-- Child-group map of a config group. -/
def ConfigGroup.groups : ConfigGroup → SMap ConfigGroup
  | .mk g _ => g

/-- Policy map of a config group. -/
def ConfigGroup.policies : ConfigGroup → SMap ConfigPolicy
  | .mk _ p => p

/-- Replace the policy map of a config group (state-passing form of the
source's in-place `cg.Policies[...]` mutation). -/
def ConfigGroup.withPolicies : ConfigGroup → SMap ConfigPolicy → ConfigGroup
  | .mk g _, p => .mk g p

/-- Write a child group back under its key (state-passing form of the
source's mutation through the child pointer). -/
def ConfigGroup.setGroup (cg : ConfigGroup) (k : String) (child : ConfigGroup) : ConfigGroup :=
  .mk (insertS cg.groups k child) cg.policies

/-- `cb.Config`: the channel group root. -/
structure Config where
  channelGroup : ConfigGroup
deriving Repr

/-- The logical in-memory `Policy` exchanged with callers: kind string
(`Type` in the source) plus textual rule. -/
structure Policy where
  ptype : String
  rule : String
deriving Repr, DecidableEq

/-- Result of a read path that can return a value, return an error, or
hit a Go run-time panic (nil-pointer dereference / index out of range). -/
inductive PRes (α : Type) where
  | ok (a : α)
  | err (e : String)
  | panics
deriving Repr, DecidableEq

/-- Result of a mutator: post-state plus `error` value, or a panic. -/
inductive MutRes where
  | ret (config : Config) (e : Option String)
  | panics
deriving Repr

/-! ## The opaque binary codec (spec §6)

Modelled from the spec: `proto.Unmarshal` / `proto.Marshal` are the
external binary codec, specified only as opaque, shape-directed and
round-tripping; decoding succeeds exactly on a payload produced by
encoding a value of the target shape. -/

/-- `proto.Unmarshal` into a `cb.ImplicitMetaPolicy`. -/
def unmarshalImplicitMeta : PolicyBytes → Except String ImplicitMetaPolicy
  | .impBytes imp => .ok imp
  | _ => .error "proto: cannot unmarshal ImplicitMetaPolicy"

/-- `proto.Unmarshal` into a `cb.SignaturePolicyEnvelope`. -/
def unmarshalSignaturePolicyEnvelope : PolicyBytes → Except String SignaturePolicyEnvelope
  | .sigBytes sp => .ok sp
  | _ => .error "proto: cannot unmarshal SignaturePolicyEnvelope"

/-- `proto.Unmarshal` into an `mb.MSPRole`. -/
def unmarshalMSPRole : PrincipalBytes → Except String MSPRole
  | .roleBytes r => .ok r
  | _ => .error "proto: cannot unmarshal MSPRole"

/-- `mb.MSPRole_MSPRoleType.String()`: the enum name for known values,
the decimal number otherwise (generated protobuf `String()`). -/
def mspRoleTypeString (r : Int) : String :=
  if r = 0 then "MEMBER"
  else if r = 1 then "ADMIN"
  else if r = 2 then "CLIENT"
  else if r = 3 then "PEER"
  else if r = 4 then "ORDERER"
  else toString r

/-! ## Formatters (`implicitMetaToString`, `mspPrincipalToString`,
`signaturePolicyToString`, `signatureMetaToString`) -/

/-- `implicitMetaToString`: renders quantifier name plus sub-policy name. -/
def implicitMetaToString (imp : ImplicitMetaPolicy) : Except String String :=
  if imp.rule = ImplicitMetaPolicy_ANY then .ok ("ANY" ++ " " ++ imp.subPolicy)
  else if imp.rule = ImplicitMetaPolicy_ALL then .ok ("ALL" ++ " " ++ imp.subPolicy)
  else if imp.rule = ImplicitMetaPolicy_MAJORITY then .ok ("MAJORITY" ++ " " ++ imp.subPolicy)
  else .error ("unknown implicit meta policy rule type " ++ toString imp.rule)

/-- `mspPrincipalToString`: ROLE renders the single-quoted
`mspID.lowercased-role`; the four other known classifications render to
the empty string with no error; anything else is an error. -/
def mspPrincipalToString (principal : MSPPrincipal) : Except String String :=
  if principal.principalClassification = MSPPrincipal_ROLE then
    match unmarshalMSPRole principal.principal with
    | .error e => .error e
    | .ok role =>
      .ok ("'" ++ role.mspIdentifier ++ "." ++ toLowerAscii (mspRoleTypeString role.role) ++ "'")
  else if principal.principalClassification = MSPPrincipal_ORGANIZATION_UNIT then .ok ""
  else if principal.principalClassification = MSPPrincipal_IDENTITY then .ok ""
  else if principal.principalClassification = MSPPrincipal_ANONYMITY then .ok ""
  else if principal.principalClassification = MSPPrincipal_COMBINED then .ok ""
  else
    .error ("unknown MSP principal classiciation "
      ++ toString principal.principalClassification)

/-- The identity-rendering loop of `signatureMetaToString`: formats each
principal in order, aborting on the first error. -/
def mspPrincipalsToStrings : List MSPPrincipal → Except String (List String)
  | [] => .ok []
  | p :: rest =>
    match mspPrincipalToString p with
    | .error e => .error e
    | .ok role =>
      match mspPrincipalsToStrings rest with
      | .error e => .error e
      | .ok roles => .ok (role :: roles)

mutual

/-- `signaturePolicyToString`: renders a threshold tree against the
positional identity texts `IDs`.  The gate is chosen by two sequential,
non-exclusive `if`s exactly as in the source: `N == 1` selects `Or`,
then `N == int32(len(rules))` overrides with `And`; only when neither
fires does `OutOf` remain, in which case the decimal threshold is
prepended as first argument.  `IDs[i]` out of range panics. -/
def signaturePolicyToString (sig : SignaturePolicy) (IDs : List String) : PRes String :=
  match sig with
  | .nOutOf n rules =>
    let gate1 := if n = 1 then GateOr else GateOutOf
    let gate := if n = int32ofNat rules.length then GateAnd else gate1
    let pre := if gate = GateOutOf then [toString n] else []
    match signaturePoliciesToString rules IDs with
    | .ok subs =>
      .ok (toUpperAscii gate ++ "(" ++ String.intercalate ", " (pre ++ subs) ++ ")")
    | .err e => .err e
    | .panics => .panics
  | .signedBy i =>
    if i < 0 then .panics
    else
      match IDs.get? i.toNat with
      | some s => .ok s
      | none => .panics
  | .unset => .err "unknown signature policy type <nil>"

/-- The child loop of `signaturePolicyToString`: formats the children in
stored order, aborting on the first error or panic. -/
def signaturePoliciesToString (rules : List SignaturePolicy) (IDs : List String) :
    PRes (List String) :=
  match rules with
  | [] => .ok []
  | r :: rs =>
    match signaturePolicyToString r IDs with
    | .ok s =>
      match signaturePoliciesToString rs IDs with
      | .ok ss => .ok (s :: ss)
      | .err e => .err e
      | .panics => .panics
    | .err e => .err e
    | .panics => .panics

end

/-- `signatureMetaToString`: renders the identity list, then the tree. -/
def signatureMetaToString (sig : SignaturePolicyEnvelope) : PRes String :=
  match mspPrincipalsToStrings sig.identities with
  | .error e => .err e
  | .ok roles => signaturePolicyToString sig.rule roles

/-! ## Policy extractor (`getPolicies`) -/

/-- `getPolicies`: decodes and formats every stored entry (in map
iteration order, modelled as list order), aborting the whole extraction
on the first decode/format failure or unknown kind-tag. -/
def getPolicies : SMap ConfigPolicy → PRes (SMap Policy)
  | [] => .ok []
  | (name, cp) :: rest =>
    if cp.policy.ptype = Policy_IMPLICIT_META then
      match unmarshalImplicitMeta cp.policy.value with
      | .error e => .err e
      | .ok imp =>
        match implicitMetaToString imp with
        | .error e => .err e
        | .ok rule =>
          match getPolicies rest with
          | .ok p => .ok ((name, Policy.mk ImplicitMetaPolicyType rule) :: p)
          | .err e => .err e
          | .panics => .panics
    else if cp.policy.ptype = Policy_SIGNATURE then
      match unmarshalSignaturePolicyEnvelope cp.policy.value with
      | .error e => .err e
      | .ok sp =>
        match signatureMetaToString sp with
        | .ok rule =>
          match getPolicies rest with
          | .ok p => .ok ((name, Policy.mk SignaturePolicyType rule) :: p)
          | .err e => .err e
          | .panics => .panics
        | .err e => .err e
        | .panics => .panics
    else .err ("unknown policy type: " ++ toString cp.policy.ptype)

/-- A stored entry on which extraction must fail: its kind-tag is
outside {IMPLICIT_META, SIGNATURE}, or its payload does not decode for
its kind-tag. -/
def badConfigPolicy (cp : ConfigPolicy) : Bool :=
  if cp.policy.ptype = Policy_IMPLICIT_META then
    !(unmarshalImplicitMeta cp.policy.value).isOk
  else if cp.policy.ptype = Policy_SIGNATURE then
    !(unmarshalSignaturePolicyEnvelope cp.policy.value).isOk
  else true

/-! ## Navigation getters -/

/-- `GetPoliciesForOrderer`: comma-ok lookup of the orderer group. -/
def GetPoliciesForOrderer (config : Config) : PRes (SMap Policy) :=
  match lookupS config.channelGroup.groups OrdererGroupKey with
  | none => .err "orderer missing from config"
  | some orderer => getPolicies orderer.policies

/-- `GetPoliciesForConsortiumOrg`: the source chains
`Groups[ConsortiumsGroupKey].Groups[consortiumName].Groups[orgName]`
with comma-ok only on the final lookup; a missing intermediate segment
yields a `nil` pointer whose `.Groups` access panics. -/
def GetPoliciesForConsortiumOrg (config : Config) (consortiumName orgName : String) :
    PRes (SMap Policy) :=
  match lookupS config.channelGroup.groups ConsortiumsGroupKey with
  | none => .panics
  | some consortiums =>
    match lookupS consortiums.groups consortiumName with
    | none => .panics
    | some consortium =>
      match lookupS consortium.groups orgName with
      | none => .err ("consortium org " ++ orgName ++ " does not exist in channel config")
      | some org => getPolicies org.policies

/-- `GetPoliciesForApplicationOrg`: the source chains
`Groups[ApplicationGroupKey].Groups[orgName]` with comma-ok only on the
final lookup; a missing application group yields a `nil` pointer whose
`.Groups` access panics. -/
def GetPoliciesForApplicationOrg (config : Config) (orgName : String) :
    PRes (SMap Policy) :=
  match lookupS config.channelGroup.groups ApplicationGroupKey with
  | none => .panics
  | some app =>
    match lookupS app.groups orgName with
    | none => .err ("application org " ++ orgName ++ " does not exist in channel config")
    | some orgGroup => getPolicies orgGroup.policies

/-! ## Installer (`addPolicy`, `addPolicies`) -/

/-- Splits a character list at its first space. -/
def splitFirstSpace : List Char → Option (List Char × List Char)
  | [] => none
  | c :: rest =>
    if c = ' ' then some ([], rest)
    else
      match splitFirstSpace rest with
      | some (a, b) => some (c :: a, b)
      | none => none

/-- Modelled from the spec: `implicitMetaFromString`, the external
implicit-meta textual-rule compiler (declared in this repository outside
`src/`).  Per spec §4.3/§6 it parses `"<QUANTIFIER> <subPolicy>"` with
quantifier one of ANY/ALL/MAJORITY, and fails on anything else. -/
def implicitMetaFromString (s : String) : Except String ImplicitMetaPolicy :=
  match splitFirstSpace s.data with
  | none => .error ("invalid implicit meta policy rule " ++ s)
  | some (q, sub) =>
    if String.mk q = "ANY" then .ok (ImplicitMetaPolicy.mk ImplicitMetaPolicy_ANY (String.mk sub))
    else if String.mk q = "ALL" then
      .ok (ImplicitMetaPolicy.mk ImplicitMetaPolicy_ALL (String.mk sub))
    else if String.mk q = "MAJORITY" then
      .ok (ImplicitMetaPolicy.mk ImplicitMetaPolicy_MAJORITY (String.mk sub))
    else .error ("invalid implicit meta policy rule " ++ s)

/-- The signature-policy DSL compiler `policydsl.FromString` lives in
this repository outside `src/` and the spec (§1, §6) leaves its grammar
opaque, so it is a parameter of the installer embedding. -/
abbrev SigCompiler := String → Except String SignaturePolicyEnvelope

/-- A degenerate instance of the opaque DSL compiler, used to settle
claims at concrete inputs that involve no signature policy. -/
def noSigCompiler : SigCompiler := fun _ => .error "unsupported"

/-- `addPolicy`: compiles the textual rule by kind, encodes the result
and stores it under the policy name with the modification-policy tag;
compile failure or an unknown kind string is an error with no mutation. -/
def addPolicy (fromString : SigCompiler) (cg : ConfigGroup) (modPolicy policyName : String)
    (policy : Policy) : ConfigGroup × Option String :=
  if policy.ptype = ImplicitMetaPolicyType then
    match implicitMetaFromString policy.rule with
    | .error e =>
      (cg, some ("invalid implicit meta policy rule: '" ++ policy.rule ++ "': " ++ e))
    | .ok imp =>
      (cg.withPolicies (insertS cg.policies policyName
        (ConfigPolicy.mk modPolicy (PolicyProto.mk Policy_IMPLICIT_META (.impBytes imp)))), none)
  else if policy.ptype = SignaturePolicyType then
    match fromString policy.rule with
    | .error e =>
      (cg, some ("invalid signature policy rule: '" ++ policy.rule ++ "': " ++ e))
    | .ok sp =>
      (cg.withPolicies (insertS cg.policies policyName
        (ConfigPolicy.mk modPolicy (PolicyProto.mk Policy_SIGNATURE (.sigBytes sp)))), none)
  else (cg, some ("unknown policy type: " ++ policy.ptype))

/-- The `error` value `addPolicy` produces for a given policy; it does
not depend on the group, the modification policy or the policy name. -/
def addPolicyErr (fromString : SigCompiler) (policy : Policy) : Option String :=
  if policy.ptype = ImplicitMetaPolicyType then
    match implicitMetaFromString policy.rule with
    | .error e => some ("invalid implicit meta policy rule: '" ++ policy.rule ++ "': " ++ e)
    | .ok _ => none
  else if policy.ptype = SignaturePolicyType then
    match fromString policy.rule with
    | .error e => some ("invalid signature policy rule: '" ++ policy.rule ++ "': " ++ e)
    | .ok _ => none
  else some ("unknown policy type: " ++ policy.ptype)

/-- The entry loop of `addPolicies`: installs entries one by one (in map
iteration order, modelled as list order) and returns on the first
failing entry, keeping the mutations already performed. -/
def addPoliciesLoop (fromString : SigCompiler) (modPolicy : String) :
    ConfigGroup → SMap Policy → ConfigGroup × Option String
  | cg, [] => (cg, none)
  | cg, (policyName, policy) :: rest =>
    match addPolicy fromString cg modPolicy policyName policy with
    | (cg2, none) => addPoliciesLoop fromString modPolicy cg2 rest
    | (cg2, some e) => (cg2, some e)

/-- `addPolicies`: rejects a `nil` map and a map missing any of
`Admins`/`Readers`/`Writers` before touching the group, then runs the
entry loop. -/
def addPolicies (fromString : SigCompiler) (cg : ConfigGroup) (policyMap : Option (SMap Policy))
    (modPolicy : String) : ConfigGroup × Option String :=
  match policyMap with
  | none => (cg, some "no policies defined")
  | some pm =>
    if lookupS pm AdminsPolicyKey = none then (cg, some "no Admins policy defined")
    else if lookupS pm ReadersPolicyKey = none then (cg, some "no Readers policy defined")
    else if lookupS pm WritersPolicyKey = none then (cg, some "no Writers policy defined")
    else addPoliciesLoop fromString modPolicy cg pm

/-! ## Removers -/

/-- `removePolicy`: checks presence against the previously extracted
view `policies`, then deletes the name from the live policy map. -/
def removePolicy (configGroup : ConfigGroup) (policyName : String) (policies : SMap Policy) :
    ConfigGroup × Option String :=
  match lookupS policies policyName with
  | none => (configGroup, some ("could not find policy '" ++ policyName ++ "'"))
  | some _ => (configGroup.withPolicies (eraseS configGroup.policies policyName), none)

/-- `RemoveOrdererPolicy`: unconditionally rejects `BlockValidation`
before any lookup, then extracts the orderer view and delegates to
`removePolicy`.  (The inner `none` branch is unreachable: the extraction
just succeeded on that same group; in the source the group pointer would
be `nil` and the delete would panic.) -/
def RemoveOrdererPolicy (config : Config) (policyName : String) : MutRes :=
  if policyName = BlockValidationPolicyKey then
    .ret config (some "BlockValidation policy must be defined")
  else
    match GetPoliciesForOrderer config with
    | .panics => .panics
    | .err e => .ret config (some e)
    | .ok policies =>
      match lookupS config.channelGroup.groups OrdererGroupKey with
      | none => .panics
      | some orderer =>
        match removePolicy orderer policyName policies with
        | (orderer2, e) => .ret (Config.mk (config.channelGroup.setGroup OrdererGroupKey orderer2)) e

/-- `RemoveConsortiumOrgPolicy`: comma-ok checks on the consortium and
the org (a missing consortiums group panics first, as in
`Groups[groupKey].Groups[consortiumName]`), then deletes the policy name
unconditionally — no presence check — and returns no error. -/
def RemoveConsortiumOrgPolicy (config : Config) (consortiumName orgName policyName : String) :
    MutRes :=
  match lookupS config.channelGroup.groups ConsortiumsGroupKey with
  | none => .panics
  | some consortiums =>
    match lookupS consortiums.groups consortiumName with
    | none =>
      .ret config (some ("consortium '" ++ consortiumName ++ "' does not exist in channel config"))
    | some consortiumGroup =>
      match lookupS consortiumGroup.groups orgName with
      | none =>
        .ret config (some (toLowerAscii ConsortiumsGroupKey ++ " org '" ++ orgName
          ++ "' does not exist in channel config"))
      | some orgGroup =>
        .ret (Config.mk (config.channelGroup.setGroup ConsortiumsGroupKey
          (consortiums.setGroup consortiumName
            (consortiumGroup.setGroup orgName
              (orgGroup.withPolicies (eraseS orgGroup.policies policyName)))))) none

/-! ## General lemmas -/

/-- `int32(len)` is the identity below `2^31`. -/
theorem int32ofNat_eq_of_lt (len : Nat) (h : len < 2 ^ 31) : int32ofNat len = len := by
  unfold int32ofNat
  omega

/-- Deleting an absent key is a no-op. -/
theorem eraseS_of_lookup_none {α : Type} (m : SMap α) (k : String)
    (h : lookupS m k = none) : eraseS m k = m := by
  induction m with
  | nil => rfl
  | cons kv rest ih =>
    obtain ⟨k', v⟩ := kv
    by_cases hk : k' = k
    · simp [lookupS, hk] at h
    · simp only [lookupS, hk, if_false, if_neg hk] at h
      simp [eraseS, hk, ih h]

/-- Upper-casing the `And` gate constant. -/
theorem toUpperAscii_gateAnd : toUpperAscii GateAnd = "AND" := by decide

/-- Upper-casing the `Or` gate constant. -/
theorem toUpperAscii_gateOr : toUpperAscii GateOr = "OR" := by decide

/-- Upper-casing the `OutOf` gate constant. -/
theorem toUpperAscii_gateOutOf : toUpperAscii GateOutOf = "OUTOF" := by decide

/-! ## Claim theorems -/

/-- Claim C8: for every config, removing the policy named
`BlockValidation` from the orderer group returns an error — whether or
not such a policy is present — and leaves the whole config (hence the
orderer policy map) unchanged; the rejection occurs before any lookup or
presence check, which is witnessed by the equality holding for every
config, including configs with no orderer group at all. -/
theorem removeOrdererPolicy_blockValidation_always_errors (config : Config) :
    RemoveOrdererPolicy config BlockValidationPolicyKey
      = .ret config (some "BlockValidation policy must be defined") := by
  simp [RemoveOrdererPolicy]

/-- Claim C9: the remove primitive errors with "could not find policy"
and does not mutate the group when the name is absent from the extracted
view, and deletes the name from the live policy map with no error when
the name is present in the view. -/
theorem removePolicy_presence_check_spec (configGroup : ConfigGroup) (policyName : String)
    (policies : SMap Policy) :
    (lookupS policies policyName = none →
      removePolicy configGroup policyName policies
        = (configGroup, some ("could not find policy '" ++ policyName ++ "'")))
    ∧ (∀ p, lookupS policies policyName = some p →
      removePolicy configGroup policyName policies
        = (configGroup.withPolicies (eraseS configGroup.policies policyName), none)) := by
  constructor
  · intro h
    simp only [removePolicy, h]
  · intro p h
    simp only [removePolicy, h]

/-- Witness for C9 at concrete inputs: an absent name errors without
mutation, a present name is deleted without error. -/
theorem removePolicy_presence_check_spec_witness :
    removePolicy (ConfigGroup.mk [] [("Admins", ConfigPolicy.mk "Admins" (PolicyProto.mk 3 .junk))])
        "Nope" [("Admins", Policy.mk "ImplicitMeta" "ANY Readers")]
      = (ConfigGroup.mk [] [("Admins", ConfigPolicy.mk "Admins" (PolicyProto.mk 3 .junk))],
         some "could not find policy 'Nope'")
    ∧ removePolicy
        (ConfigGroup.mk [] [("Admins", ConfigPolicy.mk "Admins" (PolicyProto.mk 3 .junk))])
        "Admins" [("Admins", Policy.mk "ImplicitMeta" "ANY Readers")]
      = ((ConfigGroup.mk [] [("Admins", ConfigPolicy.mk "Admins" (PolicyProto.mk 3 .junk))]).withPolicies
          (eraseS (ConfigGroup.mk [] [("Admins", ConfigPolicy.mk "Admins" (PolicyProto.mk 3 .junk))]).policies "Admins"),
         none) :=
  ⟨(removePolicy_presence_check_spec
      (ConfigGroup.mk [] [("Admins", ConfigPolicy.mk "Admins" (PolicyProto.mk 3 .junk))])
      "Nope" [("Admins", Policy.mk "ImplicitMeta" "ANY Readers")]).1 rfl,
   (removePolicy_presence_check_spec
      (ConfigGroup.mk [] [("Admins", ConfigPolicy.mk "Admins" (PolicyProto.mk 3 .junk))])
      "Admins" [("Admins", Policy.mk "ImplicitMeta" "ANY Readers")]).2
      (Policy.mk "ImplicitMeta" "ANY Readers") rfl⟩

/-- Claim C10: when the named consortium and org both exist,
`RemoveConsortiumOrgPolicy` deletes unconditionally — no presence check
against any extracted view — and returns no error even when the policy
name is absent from the org (in which case the delete is a no-op). -/
theorem removeConsortiumOrgPolicy_no_presence_check (config : Config)
    (consortiumName orgName policyName : String) (cs cGroup oGroup : ConfigGroup)
    (h1 : lookupS config.channelGroup.groups ConsortiumsGroupKey = some cs)
    (h2 : lookupS cs.groups consortiumName = some cGroup)
    (h3 : lookupS cGroup.groups orgName = some oGroup)
    (h4 : lookupS oGroup.policies policyName = none) :
    RemoveConsortiumOrgPolicy config consortiumName orgName policyName
      = .ret (Config.mk (config.channelGroup.setGroup ConsortiumsGroupKey
          (cs.setGroup consortiumName (cGroup.setGroup orgName
            (oGroup.withPolicies (eraseS oGroup.policies policyName)))))) none
    ∧ eraseS oGroup.policies policyName = oGroup.policies := by
  constructor
  · simp only [RemoveConsortiumOrgPolicy, h1, h2, h3]
  · exact eraseS_of_lookup_none _ _ h4

/-- Witness for C10 at a concrete config whose org has no policy of the
removed name: the call succeeds and the org's policy map is untouched. -/
theorem removeConsortiumOrgPolicy_no_presence_check_witness :
    RemoveConsortiumOrgPolicy
        (Config.mk (ConfigGroup.mk
          [("Consortiums", ConfigGroup.mk [("C1", ConfigGroup.mk [("O1", ConfigGroup.mk [] [])] [])] [])] []))
        "C1" "O1" "Endorsement"
      = .ret (Config.mk ((ConfigGroup.mk
          [("Consortiums", ConfigGroup.mk [("C1", ConfigGroup.mk [("O1", ConfigGroup.mk [] [])] [])] [])] []).setGroup
            "Consortiums"
            ((ConfigGroup.mk [("C1", ConfigGroup.mk [("O1", ConfigGroup.mk [] [])] [])] []).setGroup "C1"
              ((ConfigGroup.mk [("O1", ConfigGroup.mk [] [])] []).setGroup "O1"
                ((ConfigGroup.mk [] []).withPolicies (eraseS (ConfigGroup.mk [] []).policies "Endorsement"))))))
          none
    ∧ eraseS (ConfigGroup.mk [] [] : ConfigGroup).policies "Endorsement"
        = (ConfigGroup.mk [] [] : ConfigGroup).policies :=
  removeConsortiumOrgPolicy_no_presence_check
    (Config.mk (ConfigGroup.mk
      [("Consortiums", ConfigGroup.mk [("C1", ConfigGroup.mk [("O1", ConfigGroup.mk [] [])] [])] [])] []))
    "C1" "O1" "Endorsement"
    (ConfigGroup.mk [("C1", ConfigGroup.mk [("O1", ConfigGroup.mk [] [])] [])] [])
    (ConfigGroup.mk [("O1", ConfigGroup.mk [] [])] [])
    (ConfigGroup.mk [] [])
    rfl rfl rfl rfl

/-- Claim C7: a batch whose map is nil or lacks any of the required
`Admins`/`Readers`/`Writers` names is rejected with an error before any
mutation: the group (in particular its policy map) is exactly as before
the call. -/
theorem addPolicies_requires_admins_readers_writers (fromString : SigCompiler)
    (cg : ConfigGroup) (policyMap : Option (SMap Policy)) (modPolicy : String)
    (h : policyMap = none
      ∨ ∃ pm, policyMap = some pm
          ∧ (lookupS pm AdminsPolicyKey = none ∨ lookupS pm ReadersPolicyKey = none
              ∨ lookupS pm WritersPolicyKey = none)) :
    (addPolicies fromString cg policyMap modPolicy).1 = cg
    ∧ ((addPolicies fromString cg policyMap modPolicy).2).isSome = true := by
  rcases h with rfl | ⟨pm, rfl, hmiss⟩
  · exact ⟨rfl, rfl⟩
  · simp only [addPolicies]
    split_ifs with hA hR hW
    · exact ⟨rfl, rfl⟩
    · exact ⟨rfl, rfl⟩
    · exact ⟨rfl, rfl⟩
    · exact absurd hmiss (by tauto)

/-- Witness for C7: installing the empty batch on an empty group errors
and leaves the (empty) policy map empty. -/
theorem addPolicies_requires_admins_readers_writers_witness :
    (addPolicies noSigCompiler (ConfigGroup.mk [] []) (some []) "Admins").1
        = ConfigGroup.mk [] []
    ∧ ((addPolicies noSigCompiler (ConfigGroup.mk [] []) (some []) "Admins").2).isSome = true :=
  addPolicies_requires_admins_readers_writers noSigCompiler (ConfigGroup.mk [] [])
    (some []) "Admins" (Or.inr ⟨[], rfl, Or.inl rfl⟩)

/-- Claim C1 is false as stated: at the concrete node `NOutOf(1, [SignedBy 0])`
(threshold 1, exactly one child) the formatter renders `"AND(x)"`, whose
first three characters are not `"OR("` — the second gate check
(`N == len(children)`) overrides the first, so the `N == 1` check is not
strictly prior. -/
theorem nOutOf_one_single_child_renders_AND_cex :
    signaturePolicyToString (.nOutOf 1 [.signedBy 0]) ["x"] = .ok "AND(x)"
    ∧ ("AND(x)").data.take 3 ≠ ("OR(").data := by
  exact ⟨by decide, by decide⟩

/-- Claim C1 (amended): a `NOutOf` node with threshold `N == 1` renders
with the `OR` gate only when the child count differs from 1; with
exactly one child the later `N == len(children)` check overrides the
`N == 1` check and the node renders with the `AND` gate.  (`hb` bounds
the child count below `2^31` so that the `int32` cast of the length in
the source's comparison is exact.) -/
theorem nOutOf_threshold_one_gate (children : List SignaturePolicy) (IDs ss : List String)
    (hb : children.length < 2 ^ 31)
    (hf : signaturePoliciesToString children IDs = .ok ss) :
    (children.length ≠ 1 →
      signaturePolicyToString (.nOutOf 1 children) IDs
        = .ok ("OR(" ++ String.intercalate ", " ss ++ ")"))
    ∧ (children.length = 1 →
      signaturePolicyToString (.nOutOf 1 children) IDs
        = .ok ("AND(" ++ String.intercalate ", " ss ++ ")")) := by
  have h32 := int32ofNat_eq_of_lt children.length hb
  constructor
  · intro hne
    have hx : ¬((1 : Int) = int32ofNat children.length) := by
      rw [h32]
      intro hcon
      exact hne (by exact_mod_cast hcon.symm)
    simp only [signaturePolicyToString]
    rw [hf, if_neg hx, if_pos trivial, if_neg (by decide : ¬(GateOr = GateOutOf)),
      toUpperAscii_gateOr]
    simp only [List.nil_append]
    rw [show ("OR" : String) ++ "(" = "OR(" from rfl]
  · intro he
    have hx : (1 : Int) = int32ofNat children.length := by
      rw [h32, he]
      rfl
    simp only [signaturePolicyToString]
    rw [hf, if_pos hx, if_neg (by decide : ¬(GateAnd = GateOutOf)), toUpperAscii_gateAnd]
    simp only [List.nil_append]
    rw [show ("AND" : String) ++ "(" = "AND(" from rfl]

/-- Witness for the amended C1: with two children the `OR` gate is
produced, with one child the `AND` gate is produced. -/
theorem nOutOf_threshold_one_gate_witness :
    signaturePolicyToString (.nOutOf 1 [.signedBy 0, .signedBy 1]) ["x", "y"]
        = .ok ("OR(" ++ String.intercalate ", " ["x", "y"] ++ ")")
    ∧ signaturePolicyToString (.nOutOf 1 [.signedBy 0]) ["x", "y"]
        = .ok ("AND(" ++ String.intercalate ", " ["x"] ++ ")") :=
  ⟨(nOutOf_threshold_one_gate [.signedBy 0, .signedBy 1] ["x", "y"] ["x", "y"]
      (by decide) (by decide)).1 (by decide),
   (nOutOf_threshold_one_gate [.signedBy 0] ["x", "y"] ["x"]
      (by decide) (by decide)).2 (by decide)⟩

/-- Claim C4: with more than one child and threshold equal to the child
count the node renders with the `AND` gate; with `1 < N < len(children)`
it renders with the `OUTOF` gate, the decimal threshold as first
argument followed by the children's renderings in stored order,
comma-space-joined.  (`hb` bounds the child count below `2^31` so that
the `int32` cast of the length in the source's comparison is exact; the
threshold itself is an `int32` field.) -/
theorem nOutOf_and_outof_gates (n : Int) (children : List SignaturePolicy) (IDs ss : List String)
    (hb : children.length < 2 ^ 31)
    (hf : signaturePoliciesToString children IDs = .ok ss) :
    (n = (children.length : Int) → 1 < children.length →
      signaturePolicyToString (.nOutOf n children) IDs
        = .ok ("AND(" ++ String.intercalate ", " ss ++ ")"))
    ∧ (1 < n → n < (children.length : Int) →
      signaturePolicyToString (.nOutOf n children) IDs
        = .ok ("OUTOF(" ++ String.intercalate ", " (toString n :: ss) ++ ")")) := by
  have h32 := int32ofNat_eq_of_lt children.length hb
  constructor
  · intro hn h1
    have hx : n = int32ofNat children.length := by rw [h32]; exact hn
    simp only [signaturePolicyToString]
    rw [hf, if_pos hx, if_neg (by decide : ¬(GateAnd = GateOutOf)), toUpperAscii_gateAnd]
    simp only [List.nil_append]
    rw [show ("AND" : String) ++ "(" = "AND(" from rfl]
  · intro hlo hhi
    have hx : ¬(n = int32ofNat children.length) := by rw [h32]; omega
    have h1 : ¬(n = 1) := by omega
    simp only [signaturePolicyToString]
    rw [hf, if_neg hx, if_neg h1, if_pos rfl, toUpperAscii_gateOutOf]
    simp only [List.singleton_append]
    rw [show ("OUTOF" : String) ++ "(" = "OUTOF(" from rfl]

/-- Witness for C4: a 2-of-2 node renders `AND`, a 2-of-3 node renders
`OUTOF` with the threshold as first argument. -/
theorem nOutOf_and_outof_gates_witness :
    signaturePolicyToString (.nOutOf 2 [.signedBy 0, .signedBy 1]) ["x", "y"]
        = .ok ("AND(" ++ String.intercalate ", " ["x", "y"] ++ ")")
    ∧ signaturePolicyToString (.nOutOf 2 [.signedBy 0, .signedBy 1, .signedBy 0]) ["x", "y"]
        = .ok ("OUTOF(" ++ String.intercalate ", " (toString (2 : Int) :: ["x", "y", "x"]) ++ ")") :=
  ⟨(nOutOf_and_outof_gates 2 [.signedBy 0, .signedBy 1] ["x", "y"] ["x", "y"]
      (by decide) (by decide)).1 (by decide) (by decide),
   (nOutOf_and_outof_gates 2 [.signedBy 0, .signedBy 1, .signedBy 0] ["x", "y"] ["x", "y", "x"]
      (by decide) (by decide)).2 (by decide) (by decide)⟩

/-- Claim C3 is false as stated: with the consortiums group present but
the named consortium absent (an intermediate navigation segment), the
getter hits a nil-pointer dereference (a panic), not the "does not exist
in channel config" error the claim promises. -/
theorem getPoliciesForConsortiumOrg_intermediate_missing_panics_cex :
    GetPoliciesForConsortiumOrg
        (Config.mk (ConfigGroup.mk [("Consortiums", ConfigGroup.mk [] [])] [])) "C1" "O1"
      = PRes.panics
    ∧ GetPoliciesForConsortiumOrg
        (Config.mk (ConfigGroup.mk [("Consortiums", ConfigGroup.mk [] [])] [])) "C1" "O1"
      ≠ PRes.err ("consortium org O1 does not exist in channel config") := by
  exact ⟨rfl, by decide⟩

/-- Claim C3 (amended): only absence of the deepest segment (the org)
produces the "does not exist in channel config" error; absence of an
intermediate segment — the consortiums group or the named consortium for
the consortium-org getter, the application group for the application-org
getter — makes the source dereference a nil group pointer, i.e. panic
rather than return an error. -/
theorem orgGetters_missing_segment_behaviour (config : Config)
    (consortiumName orgName appOrgName : String) :
    (lookupS config.channelGroup.groups ConsortiumsGroupKey = none →
      GetPoliciesForConsortiumOrg config consortiumName orgName = .panics)
    ∧ (∀ cons, lookupS config.channelGroup.groups ConsortiumsGroupKey = some cons →
        lookupS cons.groups consortiumName = none →
        GetPoliciesForConsortiumOrg config consortiumName orgName = .panics)
    ∧ (∀ cons consortium,
        lookupS config.channelGroup.groups ConsortiumsGroupKey = some cons →
        lookupS cons.groups consortiumName = some consortium →
        lookupS consortium.groups orgName = none →
        GetPoliciesForConsortiumOrg config consortiumName orgName
          = .err ("consortium org " ++ orgName ++ " does not exist in channel config"))
    ∧ (lookupS config.channelGroup.groups ApplicationGroupKey = none →
        GetPoliciesForApplicationOrg config appOrgName = .panics)
    ∧ (∀ app, lookupS config.channelGroup.groups ApplicationGroupKey = some app →
        lookupS app.groups appOrgName = none →
        GetPoliciesForApplicationOrg config appOrgName
          = .err ("application org " ++ appOrgName ++ " does not exist in channel config")) := by
  refine ⟨?_, ?_, ?_, ?_, ?_⟩
  · intro h
    simp only [GetPoliciesForConsortiumOrg, h]
  · intro cons h1 h2
    simp only [GetPoliciesForConsortiumOrg, h1, h2]
  · intro cons consortium h1 h2 h3
    simp only [GetPoliciesForConsortiumOrg, h1, h2, h3]
  · intro h
    simp only [GetPoliciesForApplicationOrg, h]
  · intro app h1 h2
    simp only [GetPoliciesForApplicationOrg, h1, h2]

/-- Witness for the amended C3 at a concrete config: a missing
consortium panics, a missing org (deepest segment) errors, and a missing
application org errors. -/
theorem orgGetters_missing_segment_behaviour_witness :
    GetPoliciesForConsortiumOrg
        (Config.mk (ConfigGroup.mk
          [("Consortiums", ConfigGroup.mk [("C1", ConfigGroup.mk [] [])] []),
           ("Application", ConfigGroup.mk [] [])] [])) "CX" "O1"
      = PRes.panics
    ∧ GetPoliciesForConsortiumOrg
        (Config.mk (ConfigGroup.mk
          [("Consortiums", ConfigGroup.mk [("C1", ConfigGroup.mk [] [])] []),
           ("Application", ConfigGroup.mk [] [])] [])) "C1" "O1"
      = PRes.err ("consortium org " ++ "O1" ++ " does not exist in channel config")
    ∧ GetPoliciesForApplicationOrg
        (Config.mk (ConfigGroup.mk
          [("Consortiums", ConfigGroup.mk [("C1", ConfigGroup.mk [] [])] []),
           ("Application", ConfigGroup.mk [] [])] [])) "OA"
      = PRes.err ("application org " ++ "OA" ++ " does not exist in channel config") :=
  ⟨(orgGetters_missing_segment_behaviour
      (Config.mk (ConfigGroup.mk
        [("Consortiums", ConfigGroup.mk [("C1", ConfigGroup.mk [] [])] []),
         ("Application", ConfigGroup.mk [] [])] [])) "CX" "O1" "OA").2.1
      (ConfigGroup.mk [("C1", ConfigGroup.mk [] [])] []) rfl rfl,
   (orgGetters_missing_segment_behaviour
      (Config.mk (ConfigGroup.mk
        [("Consortiums", ConfigGroup.mk [("C1", ConfigGroup.mk [] [])] []),
         ("Application", ConfigGroup.mk [] [])] [])) "C1" "O1" "OA").2.2.1
      (ConfigGroup.mk [("C1", ConfigGroup.mk [] [])] []) (ConfigGroup.mk [] []) rfl rfl rfl,
   (orgGetters_missing_segment_behaviour
      (Config.mk (ConfigGroup.mk
        [("Consortiums", ConfigGroup.mk [("C1", ConfigGroup.mk [] [])] []),
         ("Application", ConfigGroup.mk [] [])] [])) "C1" "O1" "OA").2.2.2.2
      (ConfigGroup.mk [] []) rfl rfl⟩

/-- Claim C5: a ROLE principal whose payload decodes renders as the
single-quoted `mspID.lowercased-role`; the four other known
classifications render as the empty string with no error; any other
classification value is an "unknown principal classification" error. -/
theorem mspPrincipalToString_classification_spec (principal : MSPPrincipal) :
    (∀ role, principal.principalClassification = MSPPrincipal_ROLE →
      unmarshalMSPRole principal.principal = .ok role →
      mspPrincipalToString principal
        = .ok ("'" ++ role.mspIdentifier ++ "." ++ toLowerAscii (mspRoleTypeString role.role) ++ "'"))
    ∧ (principal.principalClassification = MSPPrincipal_ORGANIZATION_UNIT
        ∨ principal.principalClassification = MSPPrincipal_IDENTITY
        ∨ principal.principalClassification = MSPPrincipal_ANONYMITY
        ∨ principal.principalClassification = MSPPrincipal_COMBINED →
      mspPrincipalToString principal = .ok "")
    ∧ (principal.principalClassification ≠ MSPPrincipal_ROLE
        ∧ principal.principalClassification ≠ MSPPrincipal_ORGANIZATION_UNIT
        ∧ principal.principalClassification ≠ MSPPrincipal_IDENTITY
        ∧ principal.principalClassification ≠ MSPPrincipal_ANONYMITY
        ∧ principal.principalClassification ≠ MSPPrincipal_COMBINED →
      mspPrincipalToString principal
        = .error ("unknown MSP principal classiciation "
            ++ toString principal.principalClassification)) := by
  refine ⟨?_, ?_, ?_⟩
  · intro role h1 h2
    unfold mspPrincipalToString
    rw [h1, if_pos rfl, h2]
  · intro h
    rcases h with h | h | h | h <;>
      simp [mspPrincipalToString, h, MSPPrincipal_ROLE, MSPPrincipal_ORGANIZATION_UNIT,
        MSPPrincipal_IDENTITY, MSPPrincipal_ANONYMITY, MSPPrincipal_COMBINED]
  · intro h
    obtain ⟨h0, h1, h2, h3, h4⟩ := h
    unfold mspPrincipalToString
    rw [if_neg h0, if_neg h1, if_neg h2, if_neg h3, if_neg h4]

/-- Witness for C5: a ROLE admin principal, an ORGANIZATION_UNIT
principal and an unknown classification 7. -/
theorem mspPrincipalToString_classification_spec_witness :
    mspPrincipalToString (MSPPrincipal.mk 0 (.roleBytes (MSPRole.mk "Org1MSP" 1)))
        = .ok ("'" ++ "Org1MSP" ++ "." ++ toLowerAscii (mspRoleTypeString 1) ++ "'")
    ∧ mspPrincipalToString (MSPPrincipal.mk 1 .junkP) = .ok ""
    ∧ mspPrincipalToString (MSPPrincipal.mk 7 .junkP)
        = .error ("unknown MSP principal classiciation " ++ toString (7 : Int)) :=
  ⟨(mspPrincipalToString_classification_spec (MSPPrincipal.mk 0 (.roleBytes (MSPRole.mk "Org1MSP" 1)))).1
      (MSPRole.mk "Org1MSP" 1) rfl rfl,
   (mspPrincipalToString_classification_spec (MSPPrincipal.mk 1 .junkP)).2.1 (Or.inl rfl),
   (mspPrincipalToString_classification_spec (MSPPrincipal.mk 7 .junkP)).2.2
      ⟨by decide, by decide, by decide, by decide, by decide⟩⟩

/-- The `error` value of `addPolicy` depends only on the policy. -/
theorem addPolicy_snd (fromString : SigCompiler) (cg : ConfigGroup) (modPolicy policyName : String)
    (policy : Policy) :
    (addPolicy fromString cg modPolicy policyName policy).2 = addPolicyErr fromString policy := by
  unfold addPolicy addPolicyErr
  split_ifs
  · rcases hi : implicitMetaFromString policy.rule with e | imp
    · rfl
    · rfl
  · rcases hi : fromString policy.rule with e | sp
    · rfl
    · rfl
  · rfl

/-- A failing `addPolicy` leaves the group untouched. -/
theorem addPolicy_fst_of_err (fromString : SigCompiler) (cg : ConfigGroup)
    (modPolicy policyName : String) (policy : Policy)
    (h : addPolicyErr fromString policy ≠ none) :
    (addPolicy fromString cg modPolicy policyName policy).1 = cg := by
  unfold addPolicy
  unfold addPolicyErr at h
  split_ifs at h ⊢
  · revert h
    cases implicitMetaFromString policy.rule with
    | error e =>
      intro h
      rfl
    | ok imp =>
      intro h
      exact absurd rfl h
  · revert h
    cases fromString policy.rule with
    | error e =>
      intro h
      rfl
    | ok sp =>
      intro h
      exact absurd rfl h
  · rfl

/-- A failing `addPolicy` returns the untouched group and its error. -/
theorem addPolicy_of_err (fromString : SigCompiler) (cg : ConfigGroup)
    (modPolicy policyName : String) (policy : Policy) (e : String)
    (h : addPolicyErr fromString policy = some e) :
    addPolicy fromString cg modPolicy policyName policy = (cg, some e) := by
  have h1 := addPolicy_snd fromString cg modPolicy policyName policy
  have h2 := addPolicy_fst_of_err fromString cg modPolicy policyName policy (by rw [h]; simp)
  have h3 : addPolicy fromString cg modPolicy policyName policy
      = ((addPolicy fromString cg modPolicy policyName policy).1,
         (addPolicy fromString cg modPolicy policyName policy).2) := rfl
  rw [h3, h1, h2, h]

/-- The install loop applies the successful prefix in order and stops at
the first failing entry, returning that entry's error and keeping the
prefix's mutations. -/
theorem addPoliciesLoop_append (fromString : SigCompiler) (modPolicy : String) (n0 : String)
    (p0 : Policy) (ys : SMap Policy) (e : String)
    (h0 : addPolicyErr fromString p0 = some e) :
    ∀ (xs : SMap Policy) (cg : ConfigGroup), (∀ x ∈ xs, addPolicyErr fromString x.2 = none) →
      addPoliciesLoop fromString modPolicy cg (xs ++ (n0, p0) :: ys)
        = (xs.foldl (fun g x => (addPolicy fromString g modPolicy x.1 x.2).1) cg, some e) := by
  intro xs
  induction xs with
  | nil =>
    intro cg _
    simp only [List.nil_append, List.foldl_nil]
    rw [addPoliciesLoop, addPolicy_of_err fromString cg modPolicy n0 p0 e h0]
  | cons x xs ih =>
    intro cg hxs
    obtain ⟨nm, p⟩ := x
    have hx : addPolicyErr fromString p = none := hxs (nm, p) (by simp)
    have hsnd := addPolicy_snd fromString cg modPolicy nm p
    rw [hx] at hsnd
    simp only [List.cons_append, List.foldl_cons]
    rw [addPoliciesLoop]
    rcases hap : addPolicy fromString cg modPolicy nm p with ⟨cg2, e2⟩
    rw [hap] at hsnd
    simp only at hsnd
    subst hsnd
    simp only
    have := ih cg2 (fun y hy => hxs y (List.mem_cons_of_mem _ hy))
    rw [this]

/-- Claim C2 is false as stated: on an initially empty group, a batch
containing all three required names in which the second entry's rule
fails to compile returns an error, yet the first entry has been applied
to the group's policy map — partial application at the batch boundary. -/
theorem addPolicies_partial_application_cex :
    ((addPolicies noSigCompiler (ConfigGroup.mk [] [])
        (some [("Admins", Policy.mk ImplicitMetaPolicyType "ANY Readers"),
               ("Readers", Policy.mk ImplicitMetaPolicyType "garbage"),
               ("Writers", Policy.mk ImplicitMetaPolicyType "ANY Readers")]) "Admins").2).isSome
      = true
    ∧ (lookupS (addPolicies noSigCompiler (ConfigGroup.mk [] [])
        (some [("Admins", Policy.mk ImplicitMetaPolicyType "ANY Readers"),
               ("Readers", Policy.mk ImplicitMetaPolicyType "garbage"),
               ("Writers", Policy.mk ImplicitMetaPolicyType "ANY Readers")]) "Admins").1.policies
        AdminsPolicyKey).isSome = true := by
  exact ⟨rfl, rfl⟩

/-- Claim C2 (amended): the required-name invariant is checked before
any mutation, but a per-entry compile failure during the loop only stops
the loop: the entries already processed stay applied, the failing
entry's error is returned, and the remaining entries are not installed —
the batch is not all-or-nothing. -/
theorem addPolicies_first_error_keeps_earlier_installs (fromString : SigCompiler)
    (cg : ConfigGroup) (modPolicy : String) (xs : SMap Policy) (n0 : String) (p0 : Policy)
    (ys : SMap Policy) (e : String)
    (hA : lookupS (xs ++ (n0, p0) :: ys) AdminsPolicyKey ≠ none)
    (hR : lookupS (xs ++ (n0, p0) :: ys) ReadersPolicyKey ≠ none)
    (hW : lookupS (xs ++ (n0, p0) :: ys) WritersPolicyKey ≠ none)
    (hxs : ∀ x ∈ xs, addPolicyErr fromString x.2 = none)
    (h0 : addPolicyErr fromString p0 = some e) :
    addPolicies fromString cg (some (xs ++ (n0, p0) :: ys)) modPolicy
      = (xs.foldl (fun g x => (addPolicy fromString g modPolicy x.1 x.2).1) cg, some e) := by
  simp only [addPolicies]
  rw [if_neg hA, if_neg hR, if_neg hW]
  exact addPoliciesLoop_append fromString modPolicy n0 p0 ys e h0 xs cg hxs

/-- Witness for the amended C2 at a concrete batch: installing
`[Admins (valid), Readers (invalid), Writers (valid)]` on an empty group
returns the `Readers` compile error with exactly the `Admins` entry
applied. -/
theorem addPolicies_first_error_keeps_earlier_installs_witness :
    addPolicies noSigCompiler (ConfigGroup.mk [] [])
        (some ([("Admins", Policy.mk ImplicitMetaPolicyType "ANY Readers")]
          ++ ("Readers", Policy.mk ImplicitMetaPolicyType "garbage")
            :: [("Writers", Policy.mk ImplicitMetaPolicyType "ANY Readers")])) "Admins"
      = ([("Admins", Policy.mk ImplicitMetaPolicyType "ANY Readers")].foldl
          (fun g x => (addPolicy noSigCompiler g "Admins" x.1 x.2).1) (ConfigGroup.mk [] []),
         some ("invalid implicit meta policy rule: 'garbage': "
           ++ "invalid implicit meta policy rule garbage")) :=
  addPolicies_first_error_keeps_earlier_installs noSigCompiler (ConfigGroup.mk [] []) "Admins"
    [("Admins", Policy.mk ImplicitMetaPolicyType "ANY Readers")] "Readers"
    (Policy.mk ImplicitMetaPolicyType "garbage")
    [("Writers", Policy.mk ImplicitMetaPolicyType "ANY Readers")]
    ("invalid implicit meta policy rule: 'garbage': "
      ++ "invalid implicit meta policy rule garbage")
    (by decide) (by decide) (by decide) (by decide) (by decide)

/-- Claim C6: if any stored entry has a kind-tag outside
{IMPLICIT_META, SIGNATURE} or a payload that fails to decode, the
extraction never returns a map — in particular never a partial map of
the entries that succeeded — and, unless some entry's signature
formatting hits the out-of-range identity index (a
programming-contract violation outside the error model, which panics),
it returns an error. -/
theorem getPolicies_bad_entry_no_partial_map (ps : SMap ConfigPolicy) (name : String)
    (cp : ConfigPolicy) (hmem : (name, cp) ∈ ps) (hbad : badConfigPolicy cp = true) :
    (∀ m, getPolicies ps ≠ .ok m)
    ∧ (getPolicies ps ≠ .panics → ∃ e, getPolicies ps = .err e) := by
  have hmain : ∀ ps2, (name, cp) ∈ ps2 → ∀ m, getPolicies ps2 ≠ .ok m := by
    intro ps2
    induction ps2 with
    | nil =>
      intro hmem2
      simp at hmem2
    | cons hd tl ih =>
      intro hmem2 m hok
      obtain ⟨nm, cp0⟩ := hd
      rcases List.mem_cons.mp hmem2 with heq | hmem3
      · injection heq with e1 e2
        subst e1
        subst e2
        simp only [getPolicies] at hok
        unfold badConfigPolicy at hbad
        split_ifs at hok hbad
        · rcases hu : unmarshalImplicitMeta cp.policy.value with e | imp <;>
            rw [hu] at hok hbad
          · simp at hok
          · simp [Except.isOk, Except.toBool] at hbad
        · rcases hu : unmarshalSignaturePolicyEnvelope cp.policy.value with e | sp <;>
            rw [hu] at hok hbad
          · simp at hok
          · simp [Except.isOk, Except.toBool] at hbad
      · simp only [getPolicies] at hok
        split_ifs at hok
        · split at hok
          · simp at hok
          · split at hok
            · simp at hok
            · split at hok
              · rename_i p hp
                exact ih hmem3 p hp
              · simp at hok
              · simp at hok
        · split at hok
          · simp at hok
          · split at hok
            · split at hok
              · rename_i p hp
                exact ih hmem3 p hp
              · simp at hok
              · simp at hok
            · simp at hok
            · simp at hok
  refine ⟨hmain ps hmem, fun hnp => ?_⟩
  rcases hres : getPolicies ps with m | e | _
  · exact absurd hres (hmain ps hmem m)
  · exact ⟨e, rfl⟩
  · exact absurd hres hnp

/-- Witness for C6: a map whose first entry is a valid implicit-meta
policy and whose second entry carries the undefined kind-tag 7 does not
extract to the partial map of the one entry that succeeded. -/
theorem getPolicies_bad_entry_no_partial_map_witness :
    getPolicies
        [("A", ConfigPolicy.mk "Admins"
            (PolicyProto.mk 3 (.impBytes (ImplicitMetaPolicy.mk 0 "Readers")))),
         ("B", ConfigPolicy.mk "Admins" (PolicyProto.mk 7 .junk))]
      ≠ PRes.ok [("A", Policy.mk "ImplicitMeta" "ANY Readers")] :=
  (getPolicies_bad_entry_no_partial_map
      [("A", ConfigPolicy.mk "Admins"
          (PolicyProto.mk 3 (.impBytes (ImplicitMetaPolicy.mk 0 "Readers")))),
       ("B", ConfigPolicy.mk "Admins" (PolicyProto.mk 7 .junk))]
      "B" (ConfigPolicy.mk "Admins" (PolicyProto.mk 7 .junk))
      (List.mem_cons_of_mem _ (List.mem_cons_self _ _)) (by decide)).1
    [("A", Policy.mk "ImplicitMeta" "ANY Readers")]

end FabricConfig
